import Mathlib

/-!
Verification of the mil-ticker snapshot builder (`scripts/fetch.py`).

Shallow embedding: Python floats become exact rationals (ℚ), `None` becomes
`Option.none`.  `f"{x:.2f}"` rounding is modelled as round-half-even on the
exact rational (Python's float formatting rounds half-even; no input appearing
in any claim sits on a tie, so the tie rule never matters below).  Adapter
calls (`yahoo_last_two_closes`, `yahoo_live_price_and_prev`, the
TradingEconomics request, the RSS feed) are nondeterministic I/O; each
resolver is parametrised by the outcome such a call returned, exactly as the
resolver consumes it.
-/

/-- Round-half-even to the nearest integer (Python's float-format rounding). -/
def rhe (x : ℚ) : ℤ :=
  let f : ℤ := ⌊x⌋
  let r : ℚ := x - f
  if r < 1/2 then f
  else if 1/2 < r then f + 1
  else if f % 2 = 0 then f else f + 1

/-- `r2` on an actual number: `float(f"{float(x):.2f}")`, i.e. round to two
decimal places. -/
def r2q (x : ℚ) : ℚ := (rhe (x * 100) : ℚ) / 100

/-- `r2(x)` from `fetch.py`: the `try`/`except` returns `None` exactly when the
coercion `float(x)` fails, i.e. when the argument is `None` in every call site
of the script; a numeric argument is rounded to two decimals. -/
def r2 (x : Option ℚ) : Option ℚ := x.map r2q

/-- `pct(curr, prev)` from `fetch.py`.  `prev in (None, 0)` returns `0.0`;
a non-numeric `curr` makes `float(curr)` raise, caught by the bare `except`
which returns `0.0`; otherwise `r2(100.0 * (curr - prev) / prev)` (which is
never `None` for numeric input). -/
def pct (curr prev : Option ℚ) : ℚ :=
  match prev with
  | none => 0
  | some p =>
    if p = 0 then 0
    else match curr with
      | none => 0
      | some c => r2q (100 * (c - p) / p)

/-- One entry of the emitted `commodities` array: `{"name": .., "price": ..,
"pct": ..}`.  `price` is kept `Option ℚ` because the JSON field is nullable;
the `pct` field is always a number in the script. -/
structure Commodity where
  name : String
  price : Option ℚ
  pct : ℚ
  deriving Repr, DecidableEq

/-- `load_previous_prices()`: builds `{name: price}` from the prior snapshot's
commodity list, keeping only entries whose `price` is numeric; a duplicate
name keeps the last occurrence (dict insertion overwrites). -/
def load_previous_prices (cs : List Commodity) (n : String) : Option ℚ :=
  cs.foldl
    (fun acc c =>
      if c.name = n then
        match c.price with
        | some p => some p
        | none => acc
      else acc)
    none

/-- Python `a or b` on optional floats: `None` and `0.0` are falsy. -/
def orT (a b : Option ℚ) : Option ℚ :=
  match a with
  | none => b
  | some x => if x = 0 then b else some x

/-- The shared merge step: `if price is None or prev is None:` consult the
live-quote adapter and fill each side with `price = price or lp`,
`prev = prev or pv`. -/
def mergeLive (candle live : Option ℚ × Option ℚ) : Option ℚ × Option ℚ :=
  if candle.1 = none ∨ candle.2 = none then
    (orT candle.1 live.1, orT candle.2 live.2)
  else candle

/-- The shape of every `yahoo_last_two_closes` outcome: the function returns
`(r2(closes[-1]), r2(closes[-2]))` only after checking `len(closes) >= 2`,
where each close is a float and `r2` of a float is never `None`; every failure
path returns `(None, None)`.  So both fields are present or both are absent —
a price with an absent previous close (or vice versa) is unreachable from the
daily-candle adapter. -/
def lastTwoClosesShape (c : Option ℚ × Option ℚ) : Prop :=
  (∃ x y, c = (some x, some y)) ∨ c = (none, none)

/-- `fetch_oil`'s placeholder step: `if price is None:
price = 83.12 if name == "WTI" else 86.47`. -/
def defaultPrice (name : String) (p : Option ℚ) : Option ℚ :=
  match p with
  | none => some (if name = "WTI" then (83.12 : ℚ) else 86.47)
  | some x => some x

/-- One iteration of the loop in `fetch_oil`, for a symbol/name pair
(`candle` = outcome of `yahoo_last_two_closes`, `live` = outcome of
`yahoo_live_price_and_prev`, `pp` = `prev_prices`). -/
def oilQuote (name : String) (candle live : Option ℚ × Option ℚ)
    (pp : String → Option ℚ) : Commodity :=
  let m := mergeLive candle live
  let prev := if m.1 ≠ none ∧ m.2 = none then pp name else m.2
  let price := defaultPrice name m.1
  let prev2 := if prev = none then price else prev
  ⟨name, r2 price, pct price prev2⟩

/-- `fetch_oil(prev_prices)`: the loop over `[("CL=F","WTI"),("BZ=F","Brent")]`. -/
def fetch_oil (pp : String → Option ℚ) (candleWTI liveWTI candleBrent liveBrent :
    Option ℚ × Option ℚ) : List Commodity :=
  [oilQuote "WTI" candleWTI liveWTI pp, oilQuote "Brent" candleBrent liveBrent pp]

/-- `fetch_hrc(prev_prices)`.  `te` is the outcome of the TradingEconomics
path: `some (last, chg)` when a key is configured, the request succeeded and a
row whose name contains "hrc" and "steel" had a non-`None` `Last`.  `last` is
that `Last` value's numeric reading — `none` when `Last` is non-`None` but not
coercible to float (e.g. the string "N/A"), in which case the code still takes
this branch (only `last is not None` is checked) and `r2(Last)` is `None`, so
the returned price is null.  `chg` is the numeric value of
`DailyPercentualChange or 0` (a non-numeric `chg` would likewise make the
`pct` field null; that field's nullability is not tracked, as no property
below concerns it).  `te = none` covers every other outcome (no key, request
exception, no matching row, `Last is None`), all of which fall through to the
Yahoo path. -/
def fetch_hrc (te : Option (Option ℚ × ℚ)) (candle live : Option ℚ × Option ℚ)
    (pp : String → Option ℚ) : Commodity :=
  match te with
  | some (last, chg) => ⟨"HRC Steel", r2 last, r2q chg⟩
  | none =>
    let m := mergeLive candle live
    let prev := if m.1 ≠ none ∧ m.2 = none then pp "HRC Steel" else m.2
    if m.1 ≠ none ∧ prev ≠ none then
      ⟨"HRC Steel", r2 m.1, pct m.1 prev⟩
    else ⟨"HRC Steel", some 830.00, 0.9⟩

/-- `fetch_metal(symbol, name, fallback_price, fallback_pct, prev_prices)`
(the symbol only selects the adapter outcome, so it is dropped). -/
def fetch_metal (name : String) (fallback_price fallback_pct : ℚ)
    (candle live : Option ℚ × Option ℚ) (pp : String → Option ℚ) : Commodity :=
  let m := mergeLive candle live
  let prev := if m.1 ≠ none ∧ m.2 = none then pp name else m.2
  if m.1 ≠ none ∧ prev ≠ none then
    ⟨name, r2 m.1, pct m.1 prev⟩
  else ⟨name, some fallback_price, fallback_pct⟩

/-- The `commodities` list assembled in `main()`:
`fetch_oil` (two entries), `fetch_hrc`, Copper, Aluminum. -/
def buildCommodities (pp : String → Option ℚ)
    (cWTI lWTI cBrent lBrent : Option ℚ × Option ℚ)
    (te : Option (Option ℚ × ℚ))
    (cHrc lHrc cCu lCu cAl lAl : Option ℚ × Option ℚ) : List Commodity :=
  fetch_oil pp cWTI lWTI cBrent lBrent ++
    [fetch_hrc te cHrc lHrc pp,
     fetch_metal "Copper" 4.12 (-1.8) cCu lCu pp,
     fetch_metal "Aluminum" 2421 0.7 cAl lAl pp]

/-- One entry of the `contracts` array. -/
structure Contract where
  entity : String
  value_usd : ℤ
  note : String
  deriving Repr, DecidableEq

def lockheedPlaceholder : Contract :=
  ⟨"Lockheed Martin", 540000000, "JASSM production lot (placeholder)"⟩

def raytheonPlaceholder : Contract :=
  ⟨"Raytheon", 220000000, "Patriot spares IDIQ (placeholder)"⟩

/-- The `contracts` list assembled in `main()`: `(live or []) + [..]`, where
`live` is the RSS scrape result (`[]` on any fetch error).  Python `or` on a
list tests emptiness. -/
def buildContracts (live : List Contract) : List Contract :=
  (if live.isEmpty then [] else live) ++ [lockheedPlaceholder, raytheonPlaceholder]

/-- `rhe` rounds down when the fractional part is below one half. -/
lemma rhe_eq_down (x : ℚ) (n : ℤ) (h1 : (n : ℚ) ≤ x) (h2 : x - n < 1/2) :
    rhe x = n := by
  have hf : ⌊x⌋ = n := by
    rw [Int.floor_eq_iff]
    exact ⟨h1, by linarith⟩
  simp only [rhe, hf]
  rw [if_pos h2]

/-- `rhe` rounds up when the fractional part is above one half. -/
lemma rhe_eq_up (x : ℚ) (n : ℤ) (h2 : x < n + 1) (h3 : 1/2 < x - n) :
    rhe x = n + 1 := by
  have hf : ⌊x⌋ = n := by
    rw [Int.floor_eq_iff]
    exact ⟨by linarith, h2⟩
  simp only [rhe, hf]
  rw [if_neg (by linarith), if_pos h3]

/-- `rhe` fixes the integers. -/
lemma rhe_intCast (n : ℤ) : rhe (n : ℚ) = n := by
  apply rhe_eq_down <;> norm_num

/-- `r2q` fixes any rational that is already a whole number of hundredths. -/
lemma r2q_fix (x : ℚ) (n : ℤ) (h : (n : ℚ) = x * 100) : r2q x = x := by
  rw [r2q, ← h, rhe_intCast, h]
  field_simp

/-- Evaluation lemma for `r2q` when the hundredths digit rounds down. -/
lemma r2q_eq_down (x : ℚ) (n : ℤ) (h1 : (n : ℚ) ≤ x * 100)
    (h2 : x * 100 - n < 1/2) : r2q x = (n : ℚ) / 100 := by
  rw [r2q, rhe_eq_down (x * 100) n h1 h2]

/-- Evaluation lemma for `r2q` when the hundredths digit rounds up. -/
lemma r2q_eq_up (x : ℚ) (n : ℤ) (h2 : x * 100 < n + 1)
    (h3 : 1/2 < x * 100 - n) : r2q x = ((n : ℚ) + 1) / 100 := by
  rw [r2q, rhe_eq_up (x * 100) n h2 h3]
  push_cast
  ring

/-- Unfolding lemma for `pct` on two present values with nonzero baseline. -/
lemma pct_some_some (c p : ℚ) (hp : p ≠ 0) :
    pct (some c) (some p) = r2q (100 * (c - p) / p) := by
  simp [pct, hp]

example : r2q (1000/90) = 11.11 := by
  rw [r2q_eq_down (1000/90) 1111 (by norm_num) (by norm_num)]
  norm_num
example : r2q 5 = 5 := r2q_fix 5 500 (by norm_num)
example : pct (some 100) (some 90) = 11.11 := by
  rw [pct_some_some 100 90 (by norm_num),
    r2q_eq_down (100 * (100 - 90) / 90) 1111 (by norm_num) (by norm_num)]
  norm_num
example : pct (some 84) (some 80) = 5 := by
  rw [pct_some_some 84 80 (by norm_num)]
  have h : (100 : ℚ) * (84 - 80) / 80 = 5 := by norm_num
  rw [h]
  exact r2q_fix 5 500 (by norm_num)

lemma pct_100_90 : pct (some 100) (some 90) = 11.11 := by
  rw [pct_some_some 100 90 (by norm_num),
    r2q_eq_down (100 * (100 - 90) / 90) 1111 (by norm_num) (by norm_num)]
  norm_num

lemma pct_50_45 : pct (some 50) (some 45) = 11.11 := by
  rw [pct_some_some 50 45 (by norm_num),
    r2q_eq_down (100 * (50 - 45) / 45) 1111 (by norm_num) (by norm_num)]
  norm_num

lemma pct_84_80 : pct (some 84) (some 80) = 5 := by
  rw [pct_some_some 84 80 (by norm_num)]
  have h : (100 : ℚ) * (84 - 80) / 80 = 5 := by norm_num
  rw [h]
  exact r2q_fix 5 500 (by norm_num)

lemma pct_self (x : ℚ) (hx : x ≠ 0) : pct (some x) (some x) = 0 := by
  rw [pct_some_some x x hx]
  have h : (100 : ℚ) * (x - x) / x = 0 := by
    rw [sub_self, mul_zero, zero_div]
  rw [h]
  exact r2q_fix 0 0 (by norm_num)

lemma r2q_100 : r2q 100 = 100 := r2q_fix 100 10000 (by norm_num)
lemma r2q_50 : r2q 50 = 50 := r2q_fix 50 5000 (by norm_num)
lemma r2q_84 : r2q 84 = 84 := r2q_fix 84 8400 (by norm_num)
lemma r2q_80 : r2q 80 = 80 := r2q_fix 80 8000 (by norm_num)
lemma r2q_0 : r2q 0 = 0 := r2q_fix 0 0 (by norm_num)
lemma r2q_8312 : r2q 83.12 = 83.12 := r2q_fix 83.12 8312 (by norm_num)
lemma r2q_8647 : r2q 86.47 = 86.47 := r2q_fix 86.47 8647 (by norm_num)

lemma defaultPrice_isSome (n : String) (p : Option ℚ) :
    (defaultPrice n p).isSome := by
  cases p <;> simp [defaultPrice]

lemma oilQuote_name (n : String) (c l : Option ℚ × Option ℚ)
    (pp : String → Option ℚ) : (oilQuote n c l pp).name = n := rfl

lemma fetch_metal_name (n : String) (fp fpc : ℚ) (c l : Option ℚ × Option ℚ)
    (pp : String → Option ℚ) : (fetch_metal n fp fpc c l pp).name = n := by
  simp only [fetch_metal]
  split <;> split <;> rfl

lemma fetch_hrc_name (te : Option (Option ℚ × ℚ)) (c l : Option ℚ × Option ℚ)
    (pp : String → Option ℚ) : (fetch_hrc te c l pp).name = "HRC Steel" := by
  rcases te with _ | ⟨last, chg⟩
  · simp only [fetch_hrc]
    split <;> split <;> rfl
  · rfl

lemma oilQuote_price_isSome (n : String) (c l : Option ℚ × Option ℚ)
    (pp : String → Option ℚ) : (oilQuote n c l pp).price.isSome := by
  simp only [oilQuote, r2]
  rw [Option.isSome_map']
  exact defaultPrice_isSome n _

lemma fetch_metal_price_isSome (n : String) (fp fpc : ℚ)
    (c l : Option ℚ × Option ℚ) (pp : String → Option ℚ) :
    (fetch_metal n fp fpc c l pp).price.isSome := by
  simp only [fetch_metal]
  split <;> split
  all_goals try rfl
  all_goals
    rename_i h
    obtain ⟨h1, -⟩ := h
    simp only [r2, Option.isSome_map']
    exact Option.ne_none_iff_isSome.mp h1

lemma fetch_hrc_price_isSome (te : Option (Option ℚ × ℚ))
    (c l : Option ℚ × Option ℚ) (pp : String → Option ℚ)
    (h : ∀ chg, te ≠ some (none, chg)) :
    (fetch_hrc te c l pp).price.isSome := by
  rcases te with _ | ⟨last, chg⟩
  · simp only [fetch_hrc]
    split <;> split
    all_goals try rfl
    all_goals
      rename_i hb
      obtain ⟨h1, -⟩ := hb
      simp only [r2, Option.isSome_map']
      exact Option.ne_none_iff_isSome.mp h1
  · rcases last with _ | v
    · exact absurd rfl (h chg)
    · rfl

/-- C3: `pct` returns `0.0` when `prev` is absent or exactly zero (for any
`curr`, numeric or not), returns `round2(100 * (curr - prev) / prev)` when both
are numeric and `prev` is nonzero, and is a total function (the bare `except`
converts the `float(curr)` failure on a non-numeric `curr` into `0.0`, so no
input raises). -/
theorem pct_zero_guard :
    (∀ curr : Option ℚ, pct curr none = 0) ∧
    (∀ curr : Option ℚ, pct curr (some 0) = 0) ∧
    (∀ p : ℚ, p ≠ 0 → pct none (some p) = 0) ∧
    (∀ c p : ℚ, p ≠ 0 → pct (some c) (some p) = r2q (100 * (c - p) / p)) := by
  refine ⟨fun curr => rfl, fun curr => by simp [pct], ?_, ?_⟩
  · intro p hp
    simp [pct, hp]
  · intro c p hp
    exact pct_some_some c p hp

/-- Witness for C3 at `curr = 84`, `prev = 80`. -/
theorem pct_zero_guard_witness :
    pct (some 84) (some 80) = r2q (100 * (84 - 80) / 80) :=
  pct_zero_guard.2.2.2 84 80 (by norm_num)

/-- C8: `round2` is idempotent on every rational. -/
theorem round2_idempotent (x : ℚ) : r2q (r2q x) = r2q x := by
  have h : ((rhe (x * 100) : ℤ) : ℚ) / 100 * 100 = ((rhe (x * 100) : ℤ) : ℚ) := by
    field_simp
  simp only [r2q, h, rhe_intCast]

/-- C10: the emitted `contracts` array is the live-scraped list with the two
fixed placeholder entries (Lockheed Martin 540000000, Raytheon 220000000)
appended, so it always has at least two elements. -/
theorem contracts_placeholders_appended (live : List Contract) :
    buildContracts live = live ++ [lockheedPlaceholder, raytheonPlaceholder] ∧
    2 ≤ (buildContracts live).length := by
  cases live <;> simp [buildContracts]

/-- C6: whenever the daily-candle adapter returns `(100.00, 90.00)`, the
resolved quote is `{price: 100.00, pct: 11.11}` — on the oil path, the
HRC Yahoo path and the generic metal path alike, for every live-quote
outcome and persisted store. -/
theorem candle_pair_resolves :
    (∀ (name : String) (live : Option ℚ × Option ℚ) (pp : String → Option ℚ),
      oilQuote name (some 100, some 90) live pp = ⟨name, some 100, 11.11⟩) ∧
    (∀ (live : Option ℚ × Option ℚ) (pp : String → Option ℚ),
      fetch_hrc none (some 100, some 90) live pp =
        ⟨"HRC Steel", some 100, 11.11⟩) ∧
    (∀ (name : String) (fp fpc : ℚ) (live : Option ℚ × Option ℚ)
      (pp : String → Option ℚ),
      fetch_metal name fp fpc (some 100, some 90) live pp =
        ⟨name, some 100, 11.11⟩) := by
  refine ⟨fun name live pp => ?_, fun live pp => ?_, fun name fp fpc live pp => ?_⟩ <;>
    simp [oilQuote, fetch_hrc, fetch_metal, mergeLive, defaultPrice, r2,
      pct_100_90, r2q_100]

/-- C5: on the generic metal path, with the candle adapter fully absent, the
live-quote adapter returning `(50.00, absent)` and the persisted store holding
`45.00` for the commodity, the resolved quote is `{price: 50.00, pct: 11.11}`. -/
theorem live_price_with_store_baseline (name : String) (fp fpc : ℚ)
    (pp : String → Option ℚ) (h : pp name = some 45) :
    fetch_metal name fp fpc (none, none) (some 50, none) pp =
      ⟨name, some 50, 11.11⟩ := by
  simp [fetch_metal, mergeLive, orT, r2, h, pct_50_45, r2q_50]

/-- Witness for C5 at Copper with a store holding `45.00` everywhere. -/
theorem live_price_with_store_baseline_witness :
    fetch_metal "Copper" 4.12 (-1.8) (none, none) (some 50, none)
      (fun _ => some 45) = ⟨"Copper", some 50, 11.11⟩ :=
  live_price_with_store_baseline "Copper" 4.12 (-1.8) (fun _ => some 45) rfl

/-- C7: when every adapter returns total absence and the persisted store is
empty, each commodity resolves to its documented fixed placeholder: WTI
`{83.12, 0.0}`, Brent `{86.47, 0.0}`, HRC Steel `{830.00, 0.9}`, and a generic
metal to its configured `(fallback_price, fallback_pct)` pair. -/
theorem placeholder_on_total_outage (pp : String → Option ℚ)
    (h : ∀ n, pp n = none) :
    oilQuote "WTI" (none, none) (none, none) pp = ⟨"WTI", some 83.12, 0⟩ ∧
    oilQuote "Brent" (none, none) (none, none) pp = ⟨"Brent", some 86.47, 0⟩ ∧
    fetch_hrc none (none, none) (none, none) pp =
      ⟨"HRC Steel", some 830.00, 0.9⟩ ∧
    ∀ (name : String) (fp fpc : ℚ),
      fetch_metal name fp fpc (none, none) (none, none) pp =
        ⟨name, some fp, fpc⟩ := by
  refine ⟨?_, ?_, ?_, ?_⟩
  · simp [oilQuote, mergeLive, orT, defaultPrice, r2, r2q_8312,
      pct_self (83.12 : ℚ) (by norm_num)]
  · simp [oilQuote, mergeLive, orT, defaultPrice, r2, r2q_8647,
      pct_self (86.47 : ℚ) (by norm_num)]
  · simp [fetch_hrc, mergeLive, orT]
  · intro name fp fpc
    simp [fetch_metal, mergeLive, orT]

/-- Witness for C7 with the everywhere-empty store, at WTI and Copper. -/
theorem placeholder_on_total_outage_witness :
    oilQuote "WTI" (none, none) (none, none) (fun _ => none) =
      ⟨"WTI", some 83.12, 0⟩ ∧
    fetch_metal "Copper" 4.12 (-1.8) (none, none) (none, none)
      (fun _ => none) = ⟨"Copper", some 4.12, -1.8⟩ := by
  have h := placeholder_on_total_outage (fun _ => none) (fun _ => rfl)
  exact ⟨h.1, h.2.2.2 "Copper" 4.12 (-1.8)⟩

/-- C1 (refuted by the code at this input): when the TradingEconomics path
matches a row whose `Last` is non-`None` but non-numeric (`te = some (none,
chg)`), the assembled `commodities` list still carries the five configured
names in order, but its "HRC Steel" entry — the third element — has a *null*
price: `fetch_hrc` checks only `last is not None` before returning
`{"price": r2(last), ...}`, and `r2` of a non-numeric value is `None`.  So
the emitted snapshot violates the never-null-price invariant. -/
theorem te_nonnumeric_last_emits_null_price (pp : String → Option ℚ)
    (cWTI lWTI cBrent lBrent : Option ℚ × Option ℚ) (chg : ℚ)
    (cHrc lHrc cCu lCu cAl lAl : Option ℚ × Option ℚ) :
    (buildCommodities pp cWTI lWTI cBrent lBrent (some (none, chg)) cHrc lHrc
        cCu lCu cAl lAl).map Commodity.name =
      ["WTI", "Brent", "HRC Steel", "Copper", "Aluminum"] ∧
    fetch_hrc (some (none, chg)) cHrc lHrc pp =
      ⟨"HRC Steel", none, r2q chg⟩ ∧
    fetch_hrc (some (none, chg)) cHrc lHrc pp ∈
      buildCommodities pp cWTI lWTI cBrent lBrent (some (none, chg)) cHrc
        lHrc cCu lCu cAl lAl := by
  refine ⟨?_, rfl, ?_⟩
  · simp [buildCommodities, fetch_oil, oilQuote_name, fetch_hrc_name,
      fetch_metal_name]
  · simp [buildCommodities, fetch_oil]

/-- C4: if run 1's emitted snapshot carries a WTI price of 80.00, the store
built from it by `load_previous_prices` answers `some 80` for "WTI"; and a
run-2 WTI resolution with an absent candle window and a live quote of
`(84.00, absent)` against that store yields `{price: 84.00, pct: 5.0}`. -/
theorem persisted_price_roundtrip (pp : String → Option ℚ)
    (cWTI lWTI cBrent lBrent : Option ℚ × Option ℚ)
    (te : Option (Option ℚ × ℚ))
    (cHrc lHrc cCu lCu cAl lAl : Option ℚ × Option ℚ)
    (h : (oilQuote "WTI" cWTI lWTI pp).price = some 80) :
    load_previous_prices (buildCommodities pp cWTI lWTI cBrent lBrent te cHrc
      lHrc cCu lCu cAl lAl) "WTI" = some 80 ∧
    oilQuote "WTI" (none, none) (some 84, none)
      (load_previous_prices (buildCommodities pp cWTI lWTI cBrent lBrent te
        cHrc lHrc cCu lCu cAl lAl)) = ⟨"WTI", some 84, 5⟩ := by
  have hstore : load_previous_prices (buildCommodities pp cWTI lWTI cBrent
      lBrent te cHrc lHrc cCu lCu cAl lAl) "WTI" = some 80 := by
    simp [load_previous_prices, buildCommodities, fetch_oil, oilQuote_name,
      fetch_hrc_name, fetch_metal_name, h]
  refine ⟨hstore, ?_⟩
  simp [oilQuote, mergeLive, orT, defaultPrice, r2, hstore, pct_84_80, r2q_84]

/-- Witness for C4: run 1 resolves WTI from a candle pair `(80, 80)`. -/
theorem persisted_price_roundtrip_witness :
    load_previous_prices (buildCommodities (fun _ => none) (some 80, some 80)
      (none, none) (none, none) (none, none) none (none, none) (none, none)
      (none, none) (none, none) (none, none) (none, none)) "WTI" = some 80 ∧
    oilQuote "WTI" (none, none) (some 84, none)
      (load_previous_prices (buildCommodities (fun _ => none)
        (some 80, some 80) (none, none) (none, none) (none, none) none
        (none, none) (none, none) (none, none) (none, none) (none, none)
        (none, none))) = ⟨"WTI", some 84, 5⟩ :=
  persisted_price_roundtrip (fun _ => none) (some 80, some 80) (none, none)
    (none, none) (none, none) none (none, none) (none, none) (none, none)
    (none, none) (none, none) (none, none)
    (by simp [oilQuote, mergeLive, orT, defaultPrice, r2, r2q_80])

/-- C2: over the daily-candle adapter's reachable outcomes
(`lastTwoClosesShape`: both closes or total absence) and a live-quote adapter
that returned values, the merge behaves as claimed.  When the candle produced
a price it necessarily also produced a previous close, so the
`price is None or prev is None` guard is false, the live adapter is never
consulted, and the resolved quote takes both the price and the `pct` baseline
from the candle — whatever the live outcome.  Only when the candle produced
no price does the live quote supply it. -/
theorem merge_prefers_candle (candle : Option ℚ × Option ℚ)
    (h : lastTwoClosesShape candle) (name : String) (fp fpc lp pv : ℚ)
    (pp : String → Option ℚ) :
    (∀ c, candle.1 = some c →
      (oilQuote name candle (some lp, some pv) pp).price = some (r2q c) ∧
      (fetch_metal name fp fpc candle (some lp, some pv) pp).price =
        some (r2q c)) ∧
    (candle.1 = none →
      (oilQuote name candle (some lp, some pv) pp).price = some (r2q lp) ∧
      (fetch_metal name fp fpc candle (some lp, some pv) pp).price =
        some (r2q lp)) ∧
    (∀ c p, candle = (some c, some p) →
      oilQuote name candle (some lp, some pv) pp =
        ⟨name, some (r2q c), pct (some c) (some p)⟩ ∧
      fetch_metal name fp fpc candle (some lp, some pv) pp =
        ⟨name, some (r2q c), pct (some c) (some p)⟩) := by
  rcases h with ⟨x, y, rfl⟩ | rfl
  · refine ⟨?_, ?_, ?_⟩
    · intro c hc
      obtain rfl : x = c := by simpa using hc
      constructor
      · simp [oilQuote, mergeLive, orT, defaultPrice, r2]
      · simp [fetch_metal, mergeLive, orT, r2]
    · intro h0
      simp at h0
    · intro c p hcp
      obtain ⟨rfl, rfl⟩ : x = c ∧ y = p := by simpa using hcp
      constructor
      · simp [oilQuote, mergeLive, orT, defaultPrice, r2]
      · simp [fetch_metal, mergeLive, orT, r2]
  · refine ⟨?_, ?_, ?_⟩
    · intro c hc
      simp at hc
    · intro h0
      constructor
      · simp [oilQuote, mergeLive, orT, defaultPrice, r2]
      · simp [fetch_metal, mergeLive, orT, r2]
    · intro c p hcp
      simp at hcp

/-- Witness for C2 at the reachable candle outcome `(100, 90)` with live
`(7, 6)`: the resolved price and baseline are the candle's. -/
theorem merge_prefers_candle_witness :
    (oilQuote "WTI" (some 100, some 90) (some 7, some 6)
      (fun _ => none)).price = some (r2q 100) ∧
    oilQuote "WTI" (some 100, some 90) (some 7, some 6) (fun _ => none) =
      ⟨"WTI", some (r2q 100), pct (some 100) (some 90)⟩ := by
  have h := merge_prefers_candle (some 100, some 90)
    (Or.inl ⟨100, 90, rfl⟩) "WTI" 4.12 (-1.8) 7 6 (fun _ => none)
  exact ⟨(h.1 100 rfl).1, (h.2.2 100 90 rfl).1⟩

/-- C9 counterexample: candle returns `(0.0, 90)` — both fields non-`None` —
so the `price is None or prev is None` guard fails, the live adapter (price
`7`) is never consulted, and the resolved price is the candle's `0.0`, not the
live value; refutes "whenever the candle price is 0.0 and the live price is
nonzero, the resolved price comes from the live-quote adapter". -/
theorem truthiness_merge_cex :
    (fetch_metal "Copper" 4.12 (-1.8) (some 0, some 90) (some 7, some 6)
      (fun _ => none)).price = some 0 ∧
    (fetch_metal "Copper" 4.12 (-1.8) (some 0, some 90) (some 7, some 6)
      (fun _ => none)).price ≠ some 7 := by
  constructor <;> simp [fetch_metal, mergeLive, orT, r2, r2q_0]

/-- C9 (amended): the truthiness override operates only when the merge branch
runs, i.e. when at least one candle field is `None`: a candle outcome
`(0.0, absent)` lets the live price win, while a candle outcome `(0.0, p)`
with both fields present skips the live adapter entirely and keeps the `0.0`
price — on the oil path and the metal path alike. -/
theorem truthiness_merge :
    (∀ (name : String) (lq lv : ℚ) (pp : String → Option ℚ),
      oilQuote name (some 0, none) (some lq, some lv) pp =
        ⟨name, some (r2q lq), pct (some lq) (some lv)⟩) ∧
    (∀ (name : String) (fp fpc lq lv : ℚ) (pp : String → Option ℚ),
      fetch_metal name fp fpc (some 0, none) (some lq, some lv) pp =
        ⟨name, some (r2q lq), pct (some lq) (some lv)⟩) ∧
    (∀ (name : String) (p lq lv : ℚ) (pp : String → Option ℚ),
      (oilQuote name (some 0, some p) (some lq, some lv) pp).price =
        some 0) ∧
    (∀ (name : String) (fp fpc p lq lv : ℚ) (pp : String → Option ℚ),
      (fetch_metal name fp fpc (some 0, some p) (some lq, some lv) pp).price =
        some 0) := by
  refine ⟨?_, ?_, ?_, ?_⟩
  · intro name lq lv pp
    simp [oilQuote, mergeLive, orT, defaultPrice, r2]
  · intro name fp fpc lq lv pp
    simp [fetch_metal, mergeLive, orT, r2]
  · intro name p lq lv pp
    simp [oilQuote, mergeLive, orT, defaultPrice, r2, r2q_0]
  · intro name fp fpc p lq lv pp
    simp [fetch_metal, mergeLive, orT, r2, r2q_0]
